import Mathlib

/-!
Verification of the request/response adaptation layer of the
openai-websearch-mcp server.

The repository contains two versions of the server:
* `src/src/index.ts` (VERSION "1.1.2"): `WebSearchResponsesSchema` takes an
  `input` field that is a union `string | ConversationMessage[]`, and
  `performWebSearchResponses` forwards the validated params verbatim
  (`body: JSON.stringify(params)`) with no reshaping.
* `src/unnamed/part_000` (VERSION "1.0.0"): `WebSearchResponsesSchema` takes a
  `messages` field (array only) and `performWebSearchResponses` reshapes it
  into `{instructions?, input, previous_response_id?}` (the spec's
  "Message Reshaper", lines 514-569 of that file).

Messages are modelled with string roles, as in the TypeScript source, where
`role` is a string checked against an enum by the zod validator.
-/

/-- A conversation message `{ role: string, content: string }`. -/
structure Msg where
  role : String
  content : String
deriving DecidableEq, Repr

/-! ## Message Reshaper (part_000, performWebSearchResponses lines 514-554) -/

/-- The repeated assignment `instructions = message.content` inside
`params.messages.forEach` (part_000 lines 519-530): after the loop,
`instructions` holds the content of the LAST system-role message, or
`undefined` when there is none. -/
def lastSystemContent : List Msg → Option String
  | [] => none
  | m :: rest =>
    match lastSystemContent rest with
    | some s => some s
    | none => if m.role == "system" then some m.content else none

/-- The `userAndAssistantMessages` array collected by the same forEach loop
(part_000 lines 519-530): every message whose role is not "system", in
original order. -/
def userAndAssistantMessages (msgs : List Msg) : List Msg :=
  msgs.filter (fun m => m.role != "system")

/-- The backward scan of part_000 lines 537-544: walk
`userAndAssistantMessages` from the end looking for the first message with
role "user"; on a hit at index `i` return its content together with
`slice(0, i)` (the messages strictly before it). `none` when no user-role
message exists. -/
def findLastUserInput : List Msg → Option (String × List Msg)
  | [] => none
  | m :: rest =>
    match findLastUserInput rest with
    | some (inp, ctx) => some (inp, m :: ctx)
    | none => if m.role == "user" then some (m.content, []) else none

/-- The ReshapedInput produced by the Message Reshaper: `instructions`
(`undefined` encoded as `none`), the `input` string and the
`previousMessages` context list. -/
structure ReshapedInput where
  instructions : Option String
  input : String
  previousMessages : List Msg
deriving DecidableEq, Repr

/-- The Message Reshaper (part_000 lines 514-554): partition out the system
messages (last one becomes `instructions`), scan backward for the last
user-role message, and fall back to the last non-system message when the
scan left `input` falsy (`if (!input && userAndAssistantMessages.length > 0)`,
lines 546-554 — note that JavaScript `!input` is true both when no user
message was found and when the found user message has empty content). -/
def reshapeMessages (msgs : List Msg) : ReshapedInput :=
  let instructions := lastSystemContent msgs
  let nonSys := userAndAssistantMessages msgs
  let scanned := findLastUserInput nonSys
  let input := (scanned.map Prod.fst).getD ""
  let previousMessages := (scanned.map Prod.snd).getD []
  if input == "" then
    match nonSys.getLast? with
    | some last => ⟨instructions, last.content, nonSys.dropLast⟩
    | none => ⟨instructions, input, previousMessages⟩
  else
    ⟨instructions, input, previousMessages⟩

/-! ## Request body construction (part_000 lines 556-569)

The v1.0.0 `performWebSearchResponses` then builds `requestBody`:
`{model, tools, input}`, adds `instructions` when defined, and copies
`params.previous_response_id` only when `previousMessages.length > 0`.
The remaining optional scalar fields of the schema (temperature,
max_tokens, top_p, ..., lines 571-591) are independent passthroughs of
caller-supplied numbers/booleans that no reshaping logic touches; they are
not modelled here. -/

/-- A tool entry of the responses schemas: a `type` tag plus optional search
configuration. The configuration payload is opaque to all the logic
modelled here, so it is kept as an uninterpreted optional string. -/
structure Tool where
  type : String
  config : Option String
deriving DecidableEq, Repr

/-- The validated v1.0.0 `web_search_responses` params that the reshaping
and body construction read: `model`, `tools`, `messages` and the optional
`previous_response_id` (part_000 WebSearchResponsesSchema lines 392-476). -/
structure ResponsesParamsV1 where
  model : String
  tools : List Tool
  messages : List Msg
  previous_response_id : Option String
deriving DecidableEq, Repr

/-- The outbound JSON body of the v1.0.0 `web_search_responses` call:
`model`, `tools`, the reshaped `input`, and the optional `instructions`
and `previous_response_id` fields (`none` = key absent from the JSON). -/
structure ResponsesRequestBody where
  model : String
  tools : List Tool
  input : String
  instructions : Option String
  previous_response_id : Option String
deriving DecidableEq, Repr

/-- Body construction of part_000 lines 556-569: reshape the messages, then
`requestBody = {model, tools, input}`;
`if (instructions !== undefined) requestBody.instructions = instructions`;
`if (previousMessages.length > 0) requestBody.previous_response_id =
params.previous_response_id`. -/
def buildResponsesRequestBody (p : ResponsesParamsV1) : ResponsesRequestBody :=
  let r := reshapeMessages p.messages
  { model := p.model
    tools := p.tools
    input := r.input
    instructions := r.instructions
    previous_response_id :=
      if r.previousMessages.isEmpty then none else p.previous_response_id }

/-! ## Helper lemmas about the reshaper -/

theorem lastSystemContent_append (a b : List Msg) :
    lastSystemContent (a ++ b) =
      match lastSystemContent b with
      | some s => some s
      | none => lastSystemContent a := by
  induction a with
  | nil => cases h : lastSystemContent b <;> simp [lastSystemContent, h]
  | cons m rest ih =>
    simp only [List.cons_append, lastSystemContent, List.append_eq]
    rw [ih]
    cases h : lastSystemContent b <;> cases h2 : lastSystemContent rest <;> simp

theorem lastSystemContent_eq_none (l : List Msg) (h : ∀ x ∈ l, x.role ≠ "system") :
    lastSystemContent l = none := by
  induction l with
  | nil => rfl
  | cons m rest ih =>
    have hm : m.role ≠ "system" := h m (List.mem_cons_self m rest)
    have hrest := ih (fun x hx => h x (List.mem_cons_of_mem m hx))
    simp [lastSystemContent, hrest, hm]

theorem lastSystemContent_isSome_of_all_system (l : List Msg) (hne : l ≠ [])
    (h : ∀ x ∈ l, x.role = "system") : (lastSystemContent l).isSome = true := by
  induction l with
  | nil => exact absurd rfl hne
  | cons m rest ih =>
    have hm : m.role = "system" := h m (List.mem_cons_self m rest)
    by_cases hr : rest = []
    · subst hr
      simp [lastSystemContent, hm]
    · have := ih hr (fun x hx => h x (List.mem_cons_of_mem m hx))
      simp only [lastSystemContent]
      cases h2 : lastSystemContent rest with
      | some s => simp
      | none => simp [h2] at this

theorem findLastUserInput_eq_none (l : List Msg) (h : ∀ x ∈ l, x.role ≠ "user") :
    findLastUserInput l = none := by
  induction l with
  | nil => rfl
  | cons m rest ih =>
    have hm : m.role ≠ "user" := h m (List.mem_cons_self m rest)
    have hrest := ih (fun x hx => h x (List.mem_cons_of_mem m hx))
    simp [findLastUserInput, hrest, hm]

theorem findLastUserInput_append_of_some (a b : List Msg) (i : String) (c : List Msg)
    (h : findLastUserInput b = some (i, c)) :
    findLastUserInput (a ++ b) = some (i, a ++ c) := by
  induction a with
  | nil => simpa using h
  | cons m rest ih => simp [findLastUserInput, ih]

theorem userAndAssistant_append (a b : List Msg) :
    userAndAssistantMessages (a ++ b) =
      userAndAssistantMessages a ++ userAndAssistantMessages b := by
  simp [userAndAssistantMessages]

/-- When the backward scan found a user message with non-empty content, the
fallback of lines 546-554 does not fire. -/
theorem reshapeMessages_of_scan_nonempty (msgs : List Msg) (i : String) (c : List Msg)
    (h : findLastUserInput (userAndAssistantMessages msgs) = some (i, c))
    (hi : i ≠ "") :
    reshapeMessages msgs = ⟨lastSystemContent msgs, i, c⟩ := by
  have hbeq : (i == "") = false := by
    simp [hi]
  simp [reshapeMessages, h, hbeq]

/-- When the scan left `input` empty (no user message, or an empty-content
user message) and non-system messages exist, the fallback of lines 546-554
takes the last non-system message. -/
theorem reshapeMessages_of_input_empty (msgs : List Msg) (last : Msg)
    (h : ((findLastUserInput (userAndAssistantMessages msgs)).map Prod.fst).getD "" = "")
    (hlast : (userAndAssistantMessages msgs).getLast? = some last) :
    reshapeMessages msgs =
      ⟨lastSystemContent msgs, last.content, (userAndAssistantMessages msgs).dropLast⟩ := by
  simp [reshapeMessages, h, hlast]

/-- When every message is system-role, the scan and fallback both come up
empty. -/
theorem reshapeMessages_of_nonSys_nil (msgs : List Msg)
    (h : userAndAssistantMessages msgs = []) :
    reshapeMessages msgs = ⟨lastSystemContent msgs, "", []⟩ := by
  simp [reshapeMessages, h, findLastUserInput]

theorem reshapeMessages_instructions (msgs : List Msg) :
    (reshapeMessages msgs).instructions = lastSystemContent msgs := by
  simp only [reshapeMessages]
  split
  · split <;> rfl
  · rfl

/-! ## Claim theorems about the Message Reshaper -/

/-- C1 counterexample: the sequence `[{user, ""}, {assistant, "Sunny."}]`
contains a user-role message; its last (only) user-role message has content
`""` and no non-system message precedes it, so the claim demands
`input = ""` and `context = []`. The reshaper instead falls back
(JavaScript `!input` is true for the empty string) and returns
`input = "Sunny."` with `context = [{user, ""}]`. -/
theorem c1_counterexample :
    ¬ ((reshapeMessages [⟨"user", ""⟩, ⟨"assistant", "Sunny."⟩]).input = "" ∧
       (reshapeMessages [⟨"user", ""⟩, ⟨"assistant", "Sunny."⟩]).previousMessages = []) := by
  decide

/-- C1 amended: for every conversation whose last user-role message has
NON-EMPTY content, the reshaper's `input` equals that message's content and
`previousMessages` equals exactly the non-system messages strictly before
it, in original order. -/
theorem c1_amended (pre post : List Msg) (m : Msg)
    (hm : m.role = "user") (hpost : ∀ x ∈ post, x.role ≠ "user")
    (hc : m.content ≠ "") :
    (reshapeMessages (pre ++ m :: post)).input = m.content ∧
    (reshapeMessages (pre ++ m :: post)).previousMessages =
      userAndAssistantMessages pre := by
  have hmem : m.role != "system" := by simp [hm]
  have hpost2 : ∀ x ∈ userAndAssistantMessages post, x.role ≠ "user" :=
    fun x hx => hpost x (List.mem_of_mem_filter hx)
  have hpostnone : findLastUserInput (userAndAssistantMessages post) = none :=
    findLastUserInput_eq_none _ hpost2
  have hcons :
      findLastUserInput (m :: userAndAssistantMessages post) =
        some (m.content, []) := by
    simp [findLastUserInput, hpostnone, hm]
  have hsplit :
      userAndAssistantMessages (pre ++ m :: post) =
        userAndAssistantMessages pre ++ (m :: userAndAssistantMessages post) := by
    rw [userAndAssistant_append]
    simp [userAndAssistantMessages, List.filter_cons, hmem]
  have hscan :
      findLastUserInput (userAndAssistantMessages (pre ++ m :: post)) =
        some (m.content, userAndAssistantMessages pre) := by
    rw [hsplit]
    have := findLastUserInput_append_of_some (userAndAssistantMessages pre)
      (m :: userAndAssistantMessages post) m.content [] hcons
    simpa using this
  have := reshapeMessages_of_scan_nonempty (pre ++ m :: post) m.content
    (userAndAssistantMessages pre) hscan hc
  rw [this]
  exact ⟨rfl, rfl⟩

/-- C1 amended, witness: the spec's worked example. -/
theorem c1_amended_witness :
    (reshapeMessages
        [⟨"system", "Be concise"⟩, ⟨"user", "What is the weather?"⟩,
          ⟨"assistant", "Sunny."⟩, ⟨"user", "And tomorrow?"⟩]).input = "And tomorrow?" ∧
    (reshapeMessages
        [⟨"system", "Be concise"⟩, ⟨"user", "What is the weather?"⟩,
          ⟨"assistant", "Sunny."⟩, ⟨"user", "And tomorrow?"⟩]).previousMessages =
      userAndAssistantMessages
        [⟨"system", "Be concise"⟩, ⟨"user", "What is the weather?"⟩,
          ⟨"assistant", "Sunny."⟩] :=
  c1_amended
    [⟨"system", "Be concise"⟩, ⟨"user", "What is the weather?"⟩,
      ⟨"assistant", "Sunny."⟩]
    [] ⟨"user", "And tomorrow?"⟩ rfl (by simp) (by decide)

/-- C2: for every conversation containing at least one system-role message,
the reshaper's `instructions` equals the content of the LAST system-role
message; earlier system messages are discarded, not concatenated,
no matter how many precede it. -/
theorem c2_last_system_wins (pre post : List Msg) (m : Msg)
    (hm : m.role = "system") (hpost : ∀ x ∈ post, x.role ≠ "system") :
    (reshapeMessages (pre ++ m :: post)).instructions = some m.content := by
  rw [reshapeMessages_instructions, lastSystemContent_append]
  have hpostnone : lastSystemContent post = none :=
    lastSystemContent_eq_none post hpost
  simp [lastSystemContent, hpostnone, hm]

/-- C2 witness: two earlier system messages are both discarded in favour of
the last one. -/
theorem c2_last_system_wins_witness :
    (reshapeMessages
        [⟨"system", "one"⟩, ⟨"system", "two"⟩, ⟨"user", "q"⟩,
          ⟨"system", "three"⟩, ⟨"user", "r"⟩]).instructions = some "three" :=
  c2_last_system_wins
    [⟨"system", "one"⟩, ⟨"system", "two"⟩, ⟨"user", "q"⟩]
    [⟨"user", "r"⟩] ⟨"system", "three"⟩ rfl (by decide)

/-- C10: when the last user-role message has empty content, the fallback of
part_000 lines 546-554 fires even though a user-role message exists:
`input` becomes the content of the last non-system message and
`previousMessages` becomes all non-system messages strictly before that
last message. -/
theorem c10_empty_user_fallback (pre post : List Msg) (m : Msg)
    (hm : m.role = "user") (hc : m.content = "")
    (hpost : ∀ x ∈ post, x.role ≠ "user") :
    ∃ last, (userAndAssistantMessages (pre ++ m :: post)).getLast? = some last ∧
      (reshapeMessages (pre ++ m :: post)).input = last.content ∧
      (reshapeMessages (pre ++ m :: post)).previousMessages =
        (userAndAssistantMessages (pre ++ m :: post)).dropLast := by
  have hmem : m.role != "system" := by simp [hm]
  have hpost2 : ∀ x ∈ userAndAssistantMessages post, x.role ≠ "user" :=
    fun x hx => hpost x (List.mem_of_mem_filter hx)
  have hpostnone : findLastUserInput (userAndAssistantMessages post) = none :=
    findLastUserInput_eq_none _ hpost2
  have hcons :
      findLastUserInput (m :: userAndAssistantMessages post) =
        some (m.content, []) := by
    simp [findLastUserInput, hpostnone, hm]
  have hsplit :
      userAndAssistantMessages (pre ++ m :: post) =
        userAndAssistantMessages pre ++ (m :: userAndAssistantMessages post) := by
    rw [userAndAssistant_append]
    simp [userAndAssistantMessages, List.filter_cons, hmem]
  have hscan :
      findLastUserInput (userAndAssistantMessages (pre ++ m :: post)) =
        some (m.content, userAndAssistantMessages pre) := by
    rw [hsplit]
    have := findLastUserInput_append_of_some (userAndAssistantMessages pre)
      (m :: userAndAssistantMessages post) m.content [] hcons
    simpa using this
  have hne : userAndAssistantMessages (pre ++ m :: post) ≠ [] := by
    rw [hsplit]
    simp
  obtain ⟨last, hlast⟩ :
      ∃ last, (userAndAssistantMessages (pre ++ m :: post)).getLast? = some last := by
    cases h : (userAndAssistantMessages (pre ++ m :: post)).getLast? with
    | none => exact absurd (List.getLast?_eq_none_iff.mp h) hne
    | some last => exact ⟨last, rfl⟩
  refine ⟨last, hlast, ?_⟩
  have hempty :
      ((findLastUserInput (userAndAssistantMessages (pre ++ m :: post))).map
          Prod.fst).getD "" = "" := by
    rw [hscan]
    simpa using hc
  have := reshapeMessages_of_input_empty (pre ++ m :: post) last hempty hlast
  rw [this]
  exact ⟨rfl, rfl⟩

/-- C10 witness: `[{user, ""}, {assistant, "Sunny."}]` falls back to the
last non-system message. -/
theorem c10_empty_user_fallback_witness :
    ∃ last,
      (userAndAssistantMessages [⟨"user", ""⟩, ⟨"assistant", "Sunny."⟩]).getLast? =
        some last ∧
      (reshapeMessages [⟨"user", ""⟩, ⟨"assistant", "Sunny."⟩]).input = last.content ∧
      (reshapeMessages [⟨"user", ""⟩, ⟨"assistant", "Sunny."⟩]).previousMessages =
        (userAndAssistantMessages [⟨"user", ""⟩, ⟨"assistant", "Sunny."⟩]).dropLast :=
  c10_empty_user_fallback [] [⟨"assistant", "Sunny."⟩] ⟨"user", ""⟩ rfl rfl (by decide)

/-- C4 counterexample: the conversation `[{system, "Be concise"}]` contains
one message, yet the reshaped `input` is the empty string (system messages
never reach `userAndAssistantMessages`), refuting "input is always
non-empty when a conversation contains at least one message". -/
theorem c4_counterexample :
    ([⟨"system", "Be concise"⟩] : List Msg).length ≥ 1 ∧
    (reshapeMessages [⟨"system", "Be concise"⟩]).input = "" := by
  decide

/-- C4 amended: for every conversation containing at least one NON-SYSTEM
message: (a) if the most recent non-system message has non-empty content
then the reshaped `input` is non-empty; (b) when no user-role message
exists among the non-system messages, `input` equals the content of the
most recent NON-SYSTEM message (not "of any role") and the context is all
non-system messages before it. -/
theorem c4_amended (msgs : List Msg) (last : Msg)
    (hlast : (userAndAssistantMessages msgs).getLast? = some last) :
    (last.content ≠ "" → (reshapeMessages msgs).input ≠ "") ∧
    ((∀ x ∈ userAndAssistantMessages msgs, x.role ≠ "user") →
      (reshapeMessages msgs).input = last.content ∧
      (reshapeMessages msgs).previousMessages =
        (userAndAssistantMessages msgs).dropLast) := by
  cases hscan : findLastUserInput (userAndAssistantMessages msgs) with
  | none =>
    have hempty :
        ((findLastUserInput (userAndAssistantMessages msgs)).map Prod.fst).getD "" = "" := by
      rw [hscan]; rfl
    have heq := reshapeMessages_of_input_empty msgs last hempty hlast
    rw [heq]
    exact ⟨fun h => h, fun _ => ⟨rfl, rfl⟩⟩
  | some p =>
    obtain ⟨i, c⟩ := p
    constructor
    · intro hlt
      by_cases hi : i = ""
      · subst hi
        have hempty :
            ((findLastUserInput (userAndAssistantMessages msgs)).map Prod.fst).getD "" = "" := by
          rw [hscan]; rfl
        have heq := reshapeMessages_of_input_empty msgs last hempty hlast
        rw [heq]
        exact hlt
      · have heq := reshapeMessages_of_scan_nonempty msgs i c hscan hi
        rw [heq]
        exact hi
    · intro hnouser
      have : findLastUserInput (userAndAssistantMessages msgs) = none :=
        findLastUserInput_eq_none _ hnouser
      rw [this] at hscan
      exact absurd hscan (by simp)

/-- C4 amended, witness: a no-user conversation takes the last non-system
message (the assistant one), not the last message of any role (the system
one). -/
theorem c4_amended_witness :
    (reshapeMessages [⟨"assistant", "a"⟩, ⟨"system", "s"⟩]).input = "a" :=
  ((c4_amended [⟨"assistant", "a"⟩, ⟨"system", "s"⟩] ⟨"assistant", "a"⟩
    (by decide)).2 (by decide)).1

/-- C5: a conversation consisting solely of system-role messages yields an
empty `input` and a defined (`isSome`) `instructions`, and the outbound
request body is still built with `input = ""` — the embedding of
part_000 lines 514-569 is a total function, so no error is raised on the
way to the remote call. -/
theorem c5_all_system (p : ResponsesParamsV1) (h1 : p.messages ≠ [])
    (h2 : ∀ x ∈ p.messages, x.role = "system") :
    (reshapeMessages p.messages).input = "" ∧
    (reshapeMessages p.messages).instructions.isSome = true ∧
    (buildResponsesRequestBody p).input = "" := by
  have hnil : userAndAssistantMessages p.messages = [] := by
    rw [userAndAssistantMessages, List.filter_eq_nil_iff]
    intro x hx
    simp [h2 x hx]
  have heq := reshapeMessages_of_nonSys_nil p.messages hnil
  refine ⟨by rw [heq], ?_, ?_⟩
  · rw [reshapeMessages_instructions]
    exact lastSystemContent_isSome_of_all_system p.messages h1 h2
  · show (reshapeMessages p.messages).input = ""
    rw [heq]

/-- C5 witness. -/
theorem c5_all_system_witness :
    (reshapeMessages
        (ResponsesParamsV1.mk "gpt-4o" [] [⟨"system", "Be brief"⟩] none).messages).input = "" ∧
    (reshapeMessages
        (ResponsesParamsV1.mk "gpt-4o" [] [⟨"system", "Be brief"⟩] none).messages).instructions.isSome = true ∧
    (buildResponsesRequestBody
        (ResponsesParamsV1.mk "gpt-4o" [] [⟨"system", "Be brief"⟩] none)).input = "" :=
  c5_all_system (ResponsesParamsV1.mk "gpt-4o" [] [⟨"system", "Be brief"⟩] none)
    (by decide) (by decide)

/-- C8 counterexample: a request whose messages reshape to an empty context
(`previousMessages = []`, e.g. a single user message) has its
`previous_response_id` DROPPED from the forwarded body — part_000 line 565
copies it only `if (previousMessages.length > 0)`. -/
theorem c8_counterexample :
    (ResponsesParamsV1.mk "gpt-4o" [] [⟨"user", "hi"⟩]
        (some "resp_123")).previous_response_id = some "resp_123" ∧
    (buildResponsesRequestBody
        (ResponsesParamsV1.mk "gpt-4o" [] [⟨"user", "hi"⟩]
          (some "resp_123"))).previous_response_id = none := by
  decide

/-- C8 amended: `previous_response_id` passes through unchanged only when
the reshaped context (`previousMessages`) is non-empty; with an empty
context the field is omitted from the forwarded body. -/
theorem c8_amended (p : ResponsesParamsV1)
    (h : (reshapeMessages p.messages).previousMessages ≠ []) :
    (buildResponsesRequestBody p).previous_response_id = p.previous_response_id := by
  show (if (reshapeMessages p.messages).previousMessages.isEmpty then none
      else p.previous_response_id) = p.previous_response_id
  simp [List.isEmpty_iff, h]

/-- C8 amended, witness: a two-user conversation produces a non-empty
context, so the identifier passes through. -/
theorem c8_amended_witness :
    (buildResponsesRequestBody
        (ResponsesParamsV1.mk "gpt-4o" [] [⟨"user", "a"⟩, ⟨"user", "b"⟩]
          (some "resp_9"))).previous_response_id =
      (ResponsesParamsV1.mk "gpt-4o" [] [⟨"user", "a"⟩, ⟨"user", "b"⟩]
        (some "resp_9")).previous_response_id :=
  c8_amended
    (ResponsesParamsV1.mk "gpt-4o" [] [⟨"user", "a"⟩, ⟨"user", "b"⟩] (some "resp_9"))
    (by decide)

/-! ## v1.1.2 web_search_responses (src/src/index.ts lines 61-149)

In the current version the schema's `input` field is a union
`string | ConversationMessage[]` and `performWebSearchResponses` sends
`body: JSON.stringify(params)` — the validated params verbatim. -/

/-- The `input` union of `WebSearchResponsesSchema` in src/src/index.ts
lines 77-90: a plain string or a message array. -/
inductive ResponsesInput where
  | str (s : String)
  | msgs (l : List Msg)
deriving DecidableEq, Repr

/-- The validated v1.1.2 `web_search_responses` params
(src/src/index.ts lines 61-90): `model`, `tools`, `input`. -/
structure ResponsesParamsV2 where
  model : String
  tools : List Tool
  input : ResponsesInput
deriving DecidableEq, Repr

/-- The outbound body of the v1.1.2 call (src/src/index.ts line 134:
`body: JSON.stringify(params)`): the same three fields, copied verbatim.
There is no `instructions` or `previous_response_id` field in this body,
and no reshaping is applied. -/
structure ResponsesBodyV2 where
  model : String
  tools : List Tool
  input : ResponsesInput
deriving DecidableEq, Repr

/-- src/src/index.ts line 134: the forwarded body is the validated params,
serialized unchanged. -/
def buildResponsesBodyV2 (p : ResponsesParamsV2) : ResponsesBodyV2 :=
  ⟨p.model, p.tools, p.input⟩

/-- C3 (code bug evaluation): with a message-sequence `input`, the v1.1.2
code forwards the array verbatim — the body's `input` is still the message
list `[{user, "What is the weather?"}]`, not the Message Reshaper's
`{instructions?, input, previous_response_id?}` form, even though the
schema's own description of the field promises "will be converted to
input/instructions format" (src/src/index.ts lines 87-89). A plain-string
`input` is likewise forwarded unchanged. -/
theorem c3_forward_unreshaped :
    buildResponsesBodyV2
        (ResponsesParamsV2.mk "gpt-4o" [⟨"web_search_preview", none⟩]
          (ResponsesInput.msgs [⟨"user", "What is the weather?"⟩])) =
      ResponsesBodyV2.mk "gpt-4o" [⟨"web_search_preview", none⟩]
        (ResponsesInput.msgs [⟨"user", "What is the weather?"⟩]) ∧
    buildResponsesBodyV2
        (ResponsesParamsV2.mk "gpt-4o" [⟨"web_search_preview", none⟩]
          (ResponsesInput.str "plain query")) =
      ResponsesBodyV2.mk "gpt-4o" [⟨"web_search_preview", none⟩]
        (ResponsesInput.str "plain query") := by
  decide

/-! ## Request Forwarder (performWebSearchChatCompletion, src/src/index.ts
lines 93-122)

The fetch call and its error handling are modelled as a trace: the function
receives the list of outcomes the transport would hand to successive fetch
calls and returns the result together with the number of fetch calls it
consumed. The body of `performWebSearchChatCompletion` is straight-line —
one `fetch`, one `response.ok` check, no loop — so it consumes exactly one
outcome. -/

/-- An HTTP response as the fetch API presents it: a status code and the
body text. `response.ok` is status in the 2xx range. -/
structure HttpResponse where
  status : Nat
  body : String
deriving DecidableEq, Repr

/-- The Fetch API `response.ok` flag: status in [200, 299]. -/
def HttpResponse.ok (r : HttpResponse) : Bool :=
  200 ≤ r.status && r.status ≤ 299

/-- One outcome of a fetch call: a response, or a network-level failure
with its cause (DNS, connection, timeout). -/
inductive FetchOutcome where
  | response (r : HttpResponse)
  | networkError (cause : String)
deriving DecidableEq, Repr

/-- The fetch/ok-check/catch chain of performWebSearchChatCompletion
(src/src/index.ts lines 96-121): on a non-2xx response the code throws
`OpenAI API Error: ${status} - ${errorText}` which the catch block rewraps
as `Web search chat completion error: ...`; a network failure is rewrapped
the same way. Returns the surfaced result and the number of fetch calls
consumed from the transport. -/
def chatFetchTrace (outcomes : List FetchOutcome) : Except String String × Nat :=
  match outcomes with
  | [] => (Except.error "Web search chat completion error: fetch failed", 1)
  | FetchOutcome.networkError cause :: _ =>
    (Except.error ("Web search chat completion error: " ++ cause), 1)
  | FetchOutcome.response r :: _ =>
    if r.ok then
      (Except.ok r.body, 1)
    else
      (Except.error ("Web search chat completion error: OpenAI API Error: "
        ++ toString r.status ++ " - " ++ r.body), 1)

/-- C7: whenever the transport yields a response with a status outside the
2xx range, the forwarder surfaces an error that carries the status code and
the raw body text, and it consumes exactly one fetch call — no retry. -/
theorem c7_non2xx_error (r : HttpResponse) (rest : List FetchOutcome)
    (h : ¬ (200 ≤ r.status ∧ r.status ≤ 299)) :
    chatFetchTrace (FetchOutcome.response r :: rest) =
      (Except.error ("Web search chat completion error: OpenAI API Error: "
        ++ toString r.status ++ " - " ++ r.body), 1) := by
  have hok : r.ok = false := by
    rw [HttpResponse.ok]
    rcases Decidable.not_and_iff_or_not.mp h with h1 | h1 <;> simp [h1]
  simp [chatFetchTrace, hok]

/-- C7 witness: the spec's 429 rate-limit scenario. -/
theorem c7_non2xx_error_witness :
    chatFetchTrace
        [FetchOutcome.response ⟨429, "\x7b\"error\":\"rate_limited\"\x7d"⟩] =
      (Except.error ("Web search chat completion error: OpenAI API Error: "
        ++ toString (429 : Nat) ++ " - " ++ "\x7b\"error\":\"rate_limited\"\x7d"), 1) :=
  c7_non2xx_error ⟨429, "\x7b\"error\":\"rate_limited\"\x7d"⟩ [] (by decide)

/-! ## Schema Validator (zod schemas of src/src/index.ts lines 15-90)

Untyped caller-supplied parameters are JSON values; the zod schemas are
embedded as parsers from JSON to the typed parameter records. Per zod
semantics, `z.object` requires an object and ignores unknown keys, a
missing key fails for required fields and yields `none` for `.optional()`
ones, `z.enum` requires a string drawn from the given list, and
`z.union` tries its members in order. -/

/-- An untyped JSON value. -/
inductive Json where
  | null
  | bool (b : Bool)
  | num (n : Int)
  | str (s : String)
  | arr (elems : List Json)
  | obj (fields : List (String × Json))

/-- Key lookup on a JSON value: the field's value when the value is an
object containing the key, otherwise `none`. -/
def jsonLookup : Json → String → Option Json
  | Json.obj fs, k => fs.lookup k
  | _, _ => none

/-- The `z.object` shape check: anything but an object is rejected. -/
def getObjFields : Json → Except String (List (String × Json))
  | Json.obj fs => Except.ok fs
  | _ => Except.error "expected object"

/-- A required field: missing keys are a validation error. -/
def reqField (fs : List (String × Json)) (k : String) : Except String Json :=
  match fs.lookup k with
  | some v => Except.ok v
  | none => Except.error ("missing required field " ++ k)

/-- The `z.string()` check. -/
def parseStr : Json → Except String String
  | Json.str s => Except.ok s
  | _ => Except.error "expected string"

/-- An enum check `z.enum([...])`: a string drawn from the allowed list. -/
def parseEnum (allowed : List String) : Json → Except String String
  | Json.str s =>
    if allowed.contains s then Except.ok s
    else Except.error ("invalid enum value " ++ s)
  | _ => Except.error "expected string"

/-- The `z.string().length(2)` check (the `country` field). -/
def parseLen2 : Json → Except String String
  | Json.str s =>
    if s.length == 2 then Except.ok s else Except.error "expected 2-letter code"
  | _ => Except.error "expected string"

/-- An `.optional()` field: a missing key parses to `none`. -/
def parseOptField (f : Json → Except String α) : Option Json → Except String (Option α)
  | none => Except.ok none
  | some j => Except.map some (f j)

/-- The enum sets of the schemas (src/src/index.ts lines 37, 42, 53, 82). -/
def chatModels : List String := ["gpt-4o-search-preview", "gpt-4o-mini-search-preview"]

def chatRoles : List String := ["user", "assistant", "system", "developer"]

def responsesRoles : List String := ["user", "assistant", "system"]

def contextSizes : List String := ["low", "medium", "high"]

/-- The `approximate` payload of ApproximateLocationSchema
(src/src/index.ts lines 15-33); the constant `type: "approximate"` tag is
checked by the parser and re-added by the encoder. -/
structure ApproximateLocation where
  country : Option String
  city : Option String
  region : Option String
  timezone : Option String
deriving DecidableEq, Repr

/-- ApproximateLocationSchema (src/src/index.ts lines 15-33). -/
def parseApproximateLocation (j : Json) : Except String ApproximateLocation := do
  let fs ← getObjFields j
  let tv ← reqField fs "type"
  match tv with
  | Json.str "approximate" => do
    let aj ← reqField fs "approximate"
    let afs ← getObjFields aj
    let country ← parseOptField parseLen2 (afs.lookup "country")
    let city ← parseOptField parseStr (afs.lookup "city")
    let region ← parseOptField parseStr (afs.lookup "region")
    let timezone ← parseOptField parseStr (afs.lookup "timezone")
    return ⟨country, city, region, timezone⟩
  | _ => Except.error "expected literal approximate"

/-- The `web_search_options` object (src/src/index.ts lines 47-58). -/
structure SearchOptions where
  user_location : Option ApproximateLocation
  search_context_size : Option String
deriving DecidableEq, Repr

def parseSearchOptions (j : Json) : Except String SearchOptions := do
  let fs ← getObjFields j
  let loc ← parseOptField parseApproximateLocation (fs.lookup "user_location")
  let size ← parseOptField (parseEnum contextSizes) (fs.lookup "search_context_size")
  return ⟨loc, size⟩

/-- One message of a `messages`/`input` array: `{role: z.enum(roles),
content: z.string()}`. -/
def parseMsg (roles : List String) (j : Json) : Except String Msg := do
  let fs ← getObjFields j
  let rv ← reqField fs "role"
  let role ← parseEnum roles rv
  let cv ← reqField fs "content"
  let content ← parseStr cv
  return ⟨role, content⟩

def parseMsgList (roles : List String) : List Json → Except String (List Msg)
  | [] => Except.ok []
  | j :: rest => do
    let m ← parseMsg roles j
    let ms ← parseMsgList roles rest
    return m :: ms

/-- The `z.array(message)` check. -/
def parseMsgArray (roles : List String) : Json → Except String (List Msg)
  | Json.arr l => parseMsgList roles l
  | _ => Except.error "expected array"

/-- The validated WebSearchChatCompletionSchema params
(src/src/index.ts lines 35-59). -/
structure ChatCompletionParams where
  model : String
  messages : List Msg
  web_search_options : Option SearchOptions
deriving DecidableEq, Repr

/-- WebSearchChatCompletionSchema.parse (src/src/index.ts lines 35-59). -/
def parseChatCompletion (j : Json) : Except String ChatCompletionParams := do
  let fs ← getObjFields j
  let mv ← reqField fs "model"
  let model ← parseEnum chatModels mv
  let msv ← reqField fs "messages"
  let msgs ← parseMsgArray chatRoles msv
  let opts ← parseOptField parseSearchOptions (fs.lookup "web_search_options")
  return ⟨model, msgs, opts⟩

/-- The `input` union of WebSearchResponsesSchema (src/src/index.ts lines
77-90): `z.union([z.string(), z.array({role: z.enum(["user", "assistant",
"system"]), content: z.string()})])` — union members tried in order. -/
def parseResponsesInput (j : Json) : Except String ResponsesInput :=
  match j with
  | Json.str s => Except.ok (ResponsesInput.str s)
  | _ => Except.map ResponsesInput.msgs (parseMsgArray responsesRoles j)

/-! ## Canonical JSON encodings of well-formed typed requests -/

/-- An optional field of a JSON object: absent when the value is `none`
(JSON.stringify omits `undefined` properties). -/
def optField (k : String) : Option Json → List (String × Json)
  | none => []
  | some v => [(k, v)]

def encodeMsg (m : Msg) : Json :=
  Json.obj [("role", Json.str m.role), ("content", Json.str m.content)]

def encodeApproximateLocation (l : ApproximateLocation) : Json :=
  Json.obj [("type", Json.str "approximate"),
    ("approximate", Json.obj
      (optField "country" (l.country.map Json.str) ++
       optField "city" (l.city.map Json.str) ++
       optField "region" (l.region.map Json.str) ++
       optField "timezone" (l.timezone.map Json.str)))]

def encodeSearchOptions (o : SearchOptions) : Json :=
  Json.obj
    (optField "user_location" (o.user_location.map encodeApproximateLocation) ++
     optField "search_context_size" (o.search_context_size.map Json.str))

def encodeChatCompletion (p : ChatCompletionParams) : Json :=
  Json.obj
    ([("model", Json.str p.model),
      ("messages", Json.arr (p.messages.map encodeMsg))] ++
     optField "web_search_options" (p.web_search_options.map encodeSearchOptions))

/-! ## Validity of a typed request: the runtime constraints the schema
checks beyond mere shape. -/

def ApproximateLocation.wf (l : ApproximateLocation) : Bool :=
  l.country.all fun c => c.length == 2

def SearchOptions.wf (o : SearchOptions) : Bool :=
  o.user_location.all ApproximateLocation.wf &&
  o.search_context_size.all fun s => contextSizes.contains s

def Msg.wfChat (m : Msg) : Bool := chatRoles.contains m.role

def ChatCompletionParams.wf (p : ChatCompletionParams) : Bool :=
  chatModels.contains p.model && p.messages.all Msg.wfChat &&
  p.web_search_options.all SearchOptions.wf

/-! ## Chat-completion body construction (src/src/index.ts lines 103-107) -/

/-- The outbound chat-completion body `{model, messages,
web_search_options}`. -/
structure ChatCompletionBody where
  model : String
  messages : List Msg
  web_search_options : SearchOptions
deriving DecidableEq, Repr

/-- src/src/index.ts lines 103-107: messages pass through untouched and
`params.web_search_options || {}` defaults a missing options object to the
empty one. -/
def buildChatCompletionBody (p : ChatCompletionParams) : ChatCompletionBody :=
  ⟨p.model, p.messages, p.web_search_options.getD ⟨none, none⟩⟩

/-! ## Roundtrip lemmas: the validator accepts every well-formed request -/

@[simp]
theorem exceptBind_ok (a : α) (f : α → Except ε β) :
    (Except.ok a : Except ε α) >>= f = f a := rfl

@[simp]
theorem exceptBind_error (e : ε) (f : α → Except ε β) :
    (Except.error e : Except ε α) >>= f = Except.error e := rfl

@[simp]
theorem exceptPure_eq_ok (a : α) : (pure a : Except ε α) = Except.ok a := rfl

theorem parseEnum_encode (allowed : List String) (s : String)
    (h : allowed.contains s = true) :
    parseEnum allowed (Json.str s) = Except.ok s := by
  have h' : s ∈ allowed := by simpa using h
  simp [parseEnum, h']

theorem parseMsg_encode (roles : List String) (m : Msg)
    (h : roles.contains m.role = true) :
    parseMsg roles (encodeMsg m) = Except.ok m := by
  have h' : m.role ∈ roles := by simpa using h
  simp [parseMsg, encodeMsg, getObjFields, reqField, List.lookup, parseEnum, h',
    parseStr]

theorem parseMsgList_encode (roles : List String) (l : List Msg)
    (h : ∀ m ∈ l, roles.contains m.role = true) :
    parseMsgList roles (l.map encodeMsg) = Except.ok l := by
  induction l with
  | nil => rfl
  | cons m rest ih =>
    have hm := h m (List.mem_cons_self m rest)
    have hrest := ih (fun x hx => h x (List.mem_cons_of_mem m hx))
    simp [parseMsgList, parseMsg_encode roles m hm, hrest, Except.bind]

theorem parseApproximateLocation_encode (l : ApproximateLocation)
    (h : l.wf = true) :
    parseApproximateLocation (encodeApproximateLocation l) = Except.ok l := by
  cases l with
  | mk country city region timezone =>
    cases country with
    | none =>
      cases city <;> cases region <;> cases timezone <;>
        simp [encodeApproximateLocation, parseApproximateLocation, getObjFields,
          reqField, optField, parseOptField, parseLen2, parseStr, List.lookup,
          Except.bind, Except.map]
    | some c =>
      have hc : c.length = 2 := by
        simpa [ApproximateLocation.wf] using h
      cases city <;> cases region <;> cases timezone <;>
        simp [encodeApproximateLocation, parseApproximateLocation, getObjFields,
          reqField, optField, parseOptField, parseLen2, parseStr, List.lookup,
          Except.map, hc]

theorem parseSearchOptions_encode (o : SearchOptions) (h : o.wf = true) :
    parseSearchOptions (encodeSearchOptions o) = Except.ok o := by
  cases o with
  | mk loc size =>
    rw [SearchOptions.wf, Bool.and_eq_true] at h
    cases loc with
    | none =>
      cases size with
      | none =>
        simp [encodeSearchOptions, parseSearchOptions, getObjFields, optField,
          parseOptField, List.lookup, Except.bind, Except.map]
      | some s =>
        have hs : contextSizes.contains s = true := by simpa using h.2
        simp [encodeSearchOptions, parseSearchOptions, getObjFields, optField,
          parseOptField, List.lookup, Except.bind, Except.map, parseEnum_encode _ _ hs]
    | some l =>
      have hl : l.wf = true := by simpa using h.1
      cases size with
      | none =>
        simp [encodeSearchOptions, parseSearchOptions, getObjFields, optField,
          parseOptField, List.lookup, Except.bind, Except.map,
          parseApproximateLocation_encode l hl]
      | some s =>
        have hs : contextSizes.contains s = true := by simpa using h.2
        simp [encodeSearchOptions, parseSearchOptions, getObjFields, optField,
          parseOptField, List.lookup, Except.bind, Except.map,
          parseApproximateLocation_encode l hl, parseEnum_encode _ _ hs]

/-- C6: every valid (well-formed) ChatCompletionRequest is accepted by the
Schema Validator — parsing its canonical JSON encoding returns exactly the
request — the forwarded body's `messages` equals the request's `messages`
(identity passthrough), and a missing `web_search_options` becomes the
empty options object in the forwarded body. -/
theorem c6_valid_request_roundtrip (p : ChatCompletionParams) (h : p.wf = true) :
    parseChatCompletion (encodeChatCompletion p) = Except.ok p ∧
    (buildChatCompletionBody p).messages = p.messages ∧
    (p.web_search_options = none →
      (buildChatCompletionBody p).web_search_options = ⟨none, none⟩) := by
  rw [ChatCompletionParams.wf, Bool.and_eq_true, Bool.and_eq_true] at h
  obtain ⟨⟨hmodel, hmsgs⟩, hopts⟩ := h
  have hmsgs2 : ∀ m ∈ p.messages, chatRoles.contains m.role = true := by
    intro m hm
    have := List.all_eq_true.mp hmsgs m hm
    simpa [Msg.wfChat] using this
  refine ⟨?_, rfl, ?_⟩
  · cases p with
    | mk model messages web_search_options =>
      cases web_search_options with
      | none =>
        simp [encodeChatCompletion, parseChatCompletion, getObjFields, reqField,
          optField, parseOptField, List.lookup, Except.bind, Except.map,
          parseEnum_encode _ _ hmodel, parseMsgArray, parseMsgList_encode _ _ hmsgs2]
      | some o =>
        have ho : o.wf = true := by simpa using hopts
        simp [encodeChatCompletion, parseChatCompletion, getObjFields, reqField,
          optField, parseOptField, List.lookup, Except.bind, Except.map,
          parseEnum_encode _ _ hmodel, parseMsgArray, parseMsgList_encode _ _ hmsgs2,
          parseSearchOptions_encode o ho]
  · intro h0
    simp [buildChatCompletionBody, h0]

/-- C6 witness: a concrete valid request with no `web_search_options`. -/
theorem c6_valid_request_roundtrip_witness :
    parseChatCompletion
        (encodeChatCompletion
          (ChatCompletionParams.mk "gpt-4o-search-preview" [⟨"user", "hi"⟩] none)) =
      Except.ok (ChatCompletionParams.mk "gpt-4o-search-preview" [⟨"user", "hi"⟩] none) ∧
    (buildChatCompletionBody
        (ChatCompletionParams.mk "gpt-4o-search-preview" [⟨"user", "hi"⟩] none)).messages =
      (ChatCompletionParams.mk "gpt-4o-search-preview" [⟨"user", "hi"⟩] none).messages ∧
    ((ChatCompletionParams.mk "gpt-4o-search-preview" [⟨"user", "hi"⟩] none).web_search_options = none →
      (buildChatCompletionBody
          (ChatCompletionParams.mk "gpt-4o-search-preview" [⟨"user", "hi"⟩] none)).web_search_options =
        ⟨none, none⟩) :=
  c6_valid_request_roundtrip
    (ChatCompletionParams.mk "gpt-4o-search-preview" [⟨"user", "hi"⟩] none)
    (by decide)

/-! ## Role "developer" and the responses schema -/

theorem parseMsg_error_of_developer (j : Json)
    (h : jsonLookup j "role" = some (Json.str "developer")) :
    parseMsg responsesRoles j = Except.error "invalid enum value developer" := by
  cases j with
  | obj fs =>
    simp only [jsonLookup] at h
    simp [parseMsg, getObjFields, reqField, h, parseEnum, responsesRoles]
  | null => simp [jsonLookup] at h
  | bool b => simp [jsonLookup] at h
  | num n => simp [jsonLookup] at h
  | str s => simp [jsonLookup] at h
  | arr l => simp [jsonLookup] at h

theorem parseMsgList_error_of_mem (roles : List String) (l : List Json) (j : Json)
    (hj : j ∈ l) (e : String) (he : parseMsg roles j = Except.error e) :
    ∃ e2, parseMsgList roles l = Except.error e2 := by
  induction l with
  | nil => cases hj
  | cons a rest ih =>
    rcases List.mem_cons.mp hj with rfl | hmem
    · exact ⟨e, by simp [parseMsgList, he]⟩
    · cases ha : parseMsg roles a with
      | error e3 => exact ⟨e3, by simp [parseMsgList, ha]⟩
      | ok m =>
        obtain ⟨e2, h2⟩ := ih hmem
        exact ⟨e2, by simp [parseMsgList, ha, h2]⟩

/-- C9 counterexample: the `web_search_responses` schema REJECTS a message
sequence whose element has role "developer" — its role enum is
`["user", "assistant", "system"]` (src/src/index.ts line 82; likewise
part_000 line 415), with no "developer" member. -/
theorem c9_counterexample :
    parseResponsesInput
        (Json.arr [Json.obj [("role", Json.str "developer"),
          ("content", Json.str "hi")]]) =
      Except.error "invalid enum value developer" := rfl

/-- C9 amended: (1) for `web_search_responses`, any message sequence
containing a role-"developer" element is rejected by the Schema Validator;
(2) role "developer" is accepted by the chat-completion schema's role enum;
(3) the reshaper's non-system partition covers every non-system role
(including "developer", had such a message reached it). -/
theorem c9_amended :
    (∀ (l : List Json) (j : Json), j ∈ l →
        jsonLookup j "role" = some (Json.str "developer") →
        ∃ e, parseResponsesInput (Json.arr l) = Except.error e) ∧
    (∀ content : String,
        parseMsg chatRoles
            (Json.obj [("role", Json.str "developer"),
              ("content", Json.str content)]) =
          Except.ok ⟨"developer", content⟩) ∧
    (∀ (msgs : List Msg) (m : Msg), m ∈ msgs → m.role ≠ "system" →
        m ∈ userAndAssistantMessages msgs) := by
  refine ⟨?_, ?_, ?_⟩
  · intro l j hj hrole
    obtain ⟨e2, h2⟩ := parseMsgList_error_of_mem responsesRoles l j hj _
      (parseMsg_error_of_developer j hrole)
    exact ⟨e2, by simp [parseResponsesInput, parseMsgArray, h2, Except.map]⟩
  · intro content
    simp [parseMsg, getObjFields, reqField, List.lookup, parseEnum, parseStr,
      chatRoles]
  · intro msgs m hm hr
    exact List.mem_filter.mpr ⟨hm, by simp [hr]⟩

/-- C9 amended, witness. -/
theorem c9_amended_witness :
    ∃ e, parseResponsesInput
        (Json.arr [Json.obj [("role", Json.str "developer"),
          ("content", Json.str "hi")]]) =
      Except.error e :=
  c9_amended.1
    [Json.obj [("role", Json.str "developer"), ("content", Json.str "hi")]]
    (Json.obj [("role", Json.str "developer"), ("content", Json.str "hi")])
    (by simp) rfl

-- Scratch checks of the reshaper on the spec's worked example.
example :
    reshapeMessages
      [⟨"system", "Be concise"⟩, ⟨"user", "What is the weather?"⟩,
        ⟨"assistant", "Sunny."⟩, ⟨"user", "And tomorrow?"⟩] =
      ⟨some "Be concise", "And tomorrow?",
        [⟨"user", "What is the weather?"⟩, ⟨"assistant", "Sunny."⟩]⟩ := by
  decide

example :
    reshapeMessages [⟨"user", ""⟩, ⟨"assistant", "Sunny."⟩] =
      ⟨none, "Sunny.", [⟨"user", ""⟩]⟩ := by
  decide

example : reshapeMessages [⟨"system", "x"⟩] = ⟨some "x", "", []⟩ := by decide
